import Mathlib

/-
  Verification development for the golang-boilerplate repository.

  Shallow embedding of:
  - pkg/logger/logger.go           (context-taking JSON logger)       : PkgLogger
  - internal logger variant        (derivable JSON logger, WithField) : IntLogger
  - pkg/server/server.go           (ServerConfig, BuildAndStartServer): Srv
  - internal/libraries/env         (Variables, parseMsDuration)       : EnvCfg
  - internal/auth + pkg/response   (register handler, envelope)       : AuthApi

  Go runtime panics that the embedded code can raise are made explicit.
-/

/-- Go runtime panics relevant to the embedded code: writing to a nil map,
and calling a method on a nil interface value. -/
inductive GoPanic
  | nilMapWrite
  | nilInterfaceCall
  deriving DecidableEq, Repr

/-- Decidable equality on Except values, used to evaluate the embedded
fallible operations on concrete inputs. -/
instance instDecEqExcept {ε α : Type} [DecidableEq ε] [DecidableEq α] :
    DecidableEq (Except ε α) := fun a b =>
  match a, b with
  | .ok x, .ok y =>
    if h : x = y then isTrue (by rw [h])
    else isFalse (fun hh => by cases hh; exact h rfl)
  | .error x, .error y =>
    if h : x = y then isTrue (by rw [h])
    else isFalse (fun hh => by cases hh; exact h rfl)
  | .ok _, .error _ => isFalse (fun hh => by cases hh)
  | .error _, .ok _ => isFalse (fun hh => by cases hh)

namespace PkgLogger

/- Embedding of src/pkg/logger/logger.go. -/

/-- LogLevel constants DEBUG/INFO/WARN/ERROR/FATAL from logger.go. -/
inductive LogLevel
  | debug
  | info
  | warn
  | error
  | fatal
  deriving DecidableEq, Repr

/-- The rank each level receives in the `levels` map inside shouldLog
(DEBUG 0, INFO 1, WARN 2, ERROR 3, FATAL 4). -/
def levelIndex : LogLevel → Nat
  | .debug => 0
  | .info => 1
  | .warn => 2
  | .error => 3
  | .fatal => 4

/-- JSONLogger from pkg/logger: a writer list (sinks identified by number),
a service name, and a minimum level.  The mutex only guards I/O and is not
part of the functional state. -/
structure JSONLogger where
  writers : List Nat
  service : String
  minLevel : LogLevel
  deriving DecidableEq, Repr

/-- shouldLog from logger.go: levels[level] >= levels[l.minLevel]. -/
def shouldLog (l : JSONLogger) (level : LogLevel) : Bool :=
  levelIndex l.minLevel ≤ levelIndex level

/-- A Go context carrying the optional trace and request ID values that
log extracts via ctx.Value. -/
structure GoContext where
  traceID : Option String
  requestID : Option String
  deriving DecidableEq, Repr

/-- LogEntry from pkg/logger (timestamp, level, message, context fields,
service).  Context fields here are the trace and request IDs pulled from
the Go context; their values are strings, so json.Marshal cannot fail. -/
structure LogEntry where
  timestamp : String
  level : LogLevel
  message : String
  context : List (String × String)
  service : String
  deriving DecidableEq, Repr

/-- The contextFields map built inside log: trace_id and request_id are
added when present in the context and non-empty. -/
def contextFields (ctx : GoContext) : List (String × String) :=
  (match ctx.traceID with
   | some t => if t ≠ "" then [("trace_id", t)] else []
   | none => []) ++
  (match ctx.requestID with
   | some r => if r ≠ "" then [("request_id", r)] else []
   | none => [])

/-- Observable outcome of one call to JSONLogger.log: the writes performed
(one (sink, line) pair per Write call) and whether os.Exit(1) was reached. -/
structure LogOutcome where
  writes : List (Nat × LogEntry)
  exited : Bool
  deriving DecidableEq, Repr

/-- JSONLogger.log from pkg/logger/logger.go.  Early return when shouldLog
fails; otherwise one write of the marshalled entry per configured writer,
followed by os.Exit(1) exactly when the level is FATAL.  time.Now is passed
in as the pre-rendered timestamp; fmt.Sprintf formatting is folded into msg. -/
def log (l : JSONLogger) (now : String) (ctx : GoContext) (level : LogLevel)
    (msg : String) : LogOutcome :=
  if ¬ shouldLog l level then
    { writes := [], exited := false }
  else
    let entry : LogEntry :=
      { timestamp := now
        level := level
        message := msg
        context := contextFields ctx
        service := l.service }
    { writes := l.writers.map (fun w => (w, entry))
      exited := level = LogLevel.fatal }

end PkgLogger

namespace IntLogger

/- Embedding of the derivable JSONLogger variant (internal logger file:
WithContext / WithTraceID / WithField / clone / copyContext).  Go maps are
reference values, so map sharing and nil-map writes are modelled through an
explicit heap of map contents; a map reference is either nil (none) or an
index into the heap. -/

/-- Context values (interface\x7b\x7d in Go) are opaque to every operation
modelled here; they are embedded as strings. -/
abbrev GoValue := String

/-- Contents of one Go map[string]interface\x7b\x7d, in iteration order. -/
abbrev GoMapData := List (String × GoValue)

/-- A Go map reference: nil, or an index into the heap of allocated maps. -/
abbrev MapRef := Option Nat

/-- Go map assignment m[k] = v: replace the binding when the key is present,
otherwise append it. -/
def mapAssign (m : GoMapData) (k : String) (v : GoValue) : GoMapData :=
  if m.any (fun p => p.1 = k) then
    m.map (fun p => if p.1 = k then (k, v) else p)
  else
    m ++ [(k, v)]

/-- listGet xs i: the map stored at heap index i ([] when out of range,
matching reads from a nil map, which yield no entries). -/
def listGet : List GoMapData → Nat → GoMapData
  | [], _ => []
  | m :: _, 0 => m
  | _ :: rest, i + 1 => listGet rest i

/-- listSet xs i m: replace the map at heap index i. -/
def listSet : List GoMapData → Nat → GoMapData → List GoMapData
  | [], _, _ => []
  | _ :: rest, 0, m => m :: rest
  | x :: rest, i + 1, m => x :: listSet rest i m

/-- The heap of allocated Go maps. -/
structure Heap where
  maps : List GoMapData
  deriving DecidableEq, Repr

/-- Reading the entries of the map behind a reference; a nil map reads as
empty. -/
def Heap.read (h : Heap) (r : MapRef) : GoMapData :=
  match r with
  | none => []
  | some i => listGet h.maps i

/-- Allocating a fresh map (make + copy): returns the new heap and the index
of the fresh map. -/
def Heap.alloc (h : Heap) (m : GoMapData) : Heap × Nat :=
  ({ maps := h.maps ++ [m] }, h.maps.length)

/-- Go map assignment through a reference: assigning into a nil map is a
runtime panic. -/
def Heap.write (h : Heap) (r : MapRef) (k : String) (v : GoValue) :
    Except GoPanic Heap :=
  match r with
  | none => .error .nilMapWrite
  | some i => .ok { maps := listSet h.maps i (mapAssign (listGet h.maps i) k v) }

/-- A reference is well formed when it points inside the heap. -/
def wfRef (h : Heap) (r : MapRef) : Bool :=
  match r with
  | none => true
  | some i => i < h.maps.length

/-- The derivable JSONLogger: shared writer list, context map reference,
trace ID, service, minimum level. -/
structure JSONLogger where
  writers : List Nat
  context : MapRef
  traceID : String
  service : String
  minLevel : PkgLogger.LogLevel
  deriving DecidableEq, Repr

/-- JSONLogger.copyContext: returns nil when the context has no entries
(len == 0 covers both a nil and an empty map), otherwise allocates a fresh
map holding a copy of the entries. -/
def copyContext (h : Heap) (l : JSONLogger) : MapRef × Heap :=
  let m := h.read l.context
  if m = [] then (none, h)
  else
    let p := h.alloc m
    (some p.2, p.1)

/-- JSONLogger.clone: new instance sharing the writers, with a copied
context and the remaining fields duplicated. -/
def clone (h : Heap) (l : JSONLogger) : JSONLogger × Heap :=
  let p := copyContext h l
  ({ writers := l.writers
     context := p.1
     traceID := l.traceID
     service := l.service
     minLevel := l.minLevel }, p.2)

/-- The sequence of map assignments performed by the loop in WithContext. -/
def writeFields (h : Heap) (r : MapRef) : GoMapData → Except GoPanic Heap
  | [] => .ok h
  | (k, v) :: rest =>
    match Heap.write h r k v with
    | .error p => .error p
    | .ok h2 => writeFields h2 r rest

/-- JSONLogger.WithContext: clone, then assign every given field into the
clone context map. -/
def WithContext (h : Heap) (l : JSONLogger) (fields : GoMapData) :
    Except GoPanic (JSONLogger × Heap) :=
  let p := clone h l
  match writeFields p.2 p.1.context fields with
  | .error e => .error e
  | .ok h2 => .ok (p.1, h2)

/-- JSONLogger.WithTraceID: clone, then set the trace ID (no map write). -/
def WithTraceID (h : Heap) (l : JSONLogger) (traceID : String) :
    JSONLogger × Heap :=
  let p := clone h l
  ({ p.1 with traceID := traceID }, p.2)

/-- JSONLogger.WithField: clone, then a single map assignment into the clone
context. -/
def WithField (h : Heap) (l : JSONLogger) (k : String) (v : GoValue) :
    Except GoPanic (JSONLogger × Heap) :=
  let p := clone h l
  match Heap.write p.2 p.1.context k v with
  | .error e => .error e
  | .ok h2 => .ok (p.1, h2)

/-- The context carried by a log entry built from this logger: log stores
l.copyContext(), whose marshalled content is nil for an empty context and
the entry list otherwise (omitempty drops a nil map). -/
def entryContext (h : Heap) (l : JSONLogger) : Option GoMapData :=
  let m := h.read l.context
  if m = [] then none else some m

/-- LogEntry of the derivable logger (timestamp, level, message, context,
trace_id, service). -/
structure LogEntry where
  timestamp : String
  level : PkgLogger.LogLevel
  message : String
  context : Option GoMapData
  traceID : String
  service : String
  deriving DecidableEq, Repr

/-- shouldLog of the derivable logger: identical rank table to pkg/logger. -/
def shouldLog (l : JSONLogger) (level : PkgLogger.LogLevel) : Bool :=
  PkgLogger.levelIndex l.minLevel ≤ PkgLogger.levelIndex level

/-- Observable outcome of one call to log: writes and whether os.Exit(1)
was reached. -/
structure LogOutcome where
  writes : List (Nat × LogEntry)
  exited : Bool
  deriving DecidableEq, Repr

/-- The derivable JSONLogger.log: early return below the minimum level,
otherwise one write per configured writer of the entry carrying the copied
context and the trace ID, then os.Exit(1) exactly on FATAL. -/
def log (h : Heap) (l : JSONLogger) (now : String)
    (level : PkgLogger.LogLevel) (msg : String) : LogOutcome :=
  if ¬ shouldLog l level then
    { writes := [], exited := false }
  else
    let entry : LogEntry :=
      { timestamp := now
        level := level
        message := msg
        context := entryContext h l
        traceID := l.traceID
        service := l.service }
    { writes := l.writers.map (fun w => (w, entry))
      exited := level = PkgLogger.LogLevel.fatal }

end IntLogger

namespace Srv

/- Embedding of src/pkg/server/server.go: ServerConfig.Validate and
BuildAndStartServer.  Hook functions are embedded by their outcome: a hook
field is none when absent, some none when present and returning nil, and
some (some e) when present and returning the error e. -/

/-- Outcome of a configured hook function. -/
abbrev HookSpec := Option (Option String)

/-- ServerConfig from server.go.  App and Logger are pointers or interface
values that may be nil, embedded as Option; durations carry int64
nanoseconds.  Middlewares only wrap the handler and are irrelevant to the
lifecycle claims, so the list is kept abstract by its length. -/
structure ServerConfig where
  app : Option Unit
  port : String
  middlewareCount : Nat
  readTimeout : Int
  writeTimeout : Int
  idleTimeout : Int
  readHeaderTimeout : Int
  shutdownTimeout : Int
  onStartup : HookSpec
  onShutdown : HookSpec
  logger : Option Unit
  deriving DecidableEq, Repr

/-- ServerConfig.Validate.  Its very first statement is
c.Logger.Info("Validating server configuration..."), a method call on the
Logger interface: when Logger is nil this panics before any check runs, so
the later c.Logger == nil branch is unreachable.  With a non-nil logger the
checks run in source order and return the first failure. -/
def Validate (c : ServerConfig) : Except GoPanic (Option String) :=
  if c.logger = none then
    .error .nilInterfaceCall
  else if c.app = none then
    .ok (some "app cannot be nil")
  else if c.port = "" then
    .ok (some "port cannot be empty")
  else if c.shutdownTimeout ≤ 0 then
    .ok (some "shutdown timeout must be positive")
  else if c.logger = none then
    .ok (some "Logger cannot be empty")
  else
    .ok none

/-- Observable events of one BuildAndStartServer execution, in causal
order. -/
inductive Event
  | validate
  | startupHook
  | listen
  | errorSent (e : String)
  | signalReceived
  | shutdownHook
  | shutdownHookErrorLogged (e : String)
  | shutdownRequested
  | forceClose
  deriving DecidableEq, Repr

/-- Resolution of the nondeterminism in one run: whether ListenAndServe
fails (with an error other than ErrServerClosed) once reached, whether a
termination signal is delivered, which channel the select takes when both
are ready, and whether the graceful Shutdown and the forced Close
succeed. -/
structure Scenario where
  listenErr : Option String
  signalArrives : Bool
  signalWins : Bool
  gracefulOk : Bool
  closeOk : Bool
  deriving DecidableEq, Repr

/-- Terminal outcome of BuildAndStartServer: a returned error value (none
is the nil error of a graceful stop), a runtime panic, or blocking forever
on the select. -/
inductive Outcome
  | returned (err : Option String)
  | panicked (p : GoPanic)
  | blocked
  deriving DecidableEq, Repr

/-- One execution: its event trace and terminal outcome. -/
structure RunResult where
  trace : List Event
  outcome : Outcome
  deriving DecidableEq, Repr

/-- The startup goroutine body: run the startup hook first when present; a
hook error is sent on the serverErrors channel and the goroutine returns
without reaching ListenAndServe; otherwise ListenAndServe runs, and a
listener failure other than ErrServerClosed is sent on the channel.
Returns the goroutine events and the value sitting in the channel. -/
def startupPhase (c : ServerConfig) (sc : Scenario) :
    List Event × Option String :=
  match c.onStartup with
  | some (some e) =>
    ([.startupHook, .errorSent ("startup hook failed: " ++ e)],
     some ("startup hook failed: " ++ e))
  | some none =>
    match sc.listenErr with
    | some e =>
      ([.startupHook, .listen, .errorSent ("server failed: " ++ e)],
       some ("server failed: " ++ e))
    | none => ([.startupHook, .listen], none)
  | none =>
    match sc.listenErr with
    | some e =>
      ([.listen, .errorSent ("server failed: " ++ e)],
       some ("server failed: " ++ e))
    | none => ([.listen], none)

/-- Events of the shutdown path taken after a signal: the shutdown hook
runs first when present (an error is only logged), then the graceful close
is requested; on deadline failure the listener is force-closed. -/
def shutdownEvents (c : ServerConfig) (sc : Scenario) : List Event :=
  (match c.onShutdown with
   | none => []
   | some none => [.shutdownHook]
   | some (some e) => [.shutdownHook, .shutdownHookErrorLogged e]) ++
  (if sc.gracefulOk then [.shutdownRequested]
   else [.shutdownRequested, .forceClose])

/-- The error value BuildAndStartServer returns on the shutdown path: nil
after a graceful close within the deadline, the forced-shutdown error when
the deadline expires but Close succeeds, and the close error otherwise.  A
shutdown-hook failure does not appear here: it is logged only. -/
def shutdownResult (sc : Scenario) : Option String :=
  if sc.gracefulOk then none
  else if sc.closeOk then
    some "forced shutdown due to: context deadline exceeded"
  else some "failed to close server"

/-- BuildAndStartServer: validate once; on failure return the wrapped
validation error with nothing started.  Otherwise the goroutine runs; the
main path blocks on select over the serverErrors channel and the signal
channel (first ready wins; the scenario resolves a tie), either returning
the received server error or entering the shutdown path. -/
def run (c : ServerConfig) (sc : Scenario) : RunResult :=
  match Validate c with
  | .error p => { trace := [.validate], outcome := .panicked p }
  | .ok (some e) =>
    { trace := [.validate]
      outcome := .returned (some ("invalid server configuration: " ++ e)) }
  | .ok none =>
    let g := startupPhase c sc
    match g.2, sc.signalArrives, sc.signalWins with
    | some e, false, _ =>
      { trace := .validate :: g.1, outcome := .returned (some e) }
    | some e, true, false =>
      { trace := .validate :: g.1, outcome := .returned (some e) }
    | some _, true, true =>
      { trace := .validate :: g.1 ++ [.signalReceived] ++ shutdownEvents c sc
        outcome := .returned (shutdownResult sc) }
    | none, true, _ =>
      { trace := .validate :: g.1 ++ [.signalReceived] ++ shutdownEvents c sc
        outcome := .returned (shutdownResult sc) }
    | none, false, _ =>
      { trace := .validate :: g.1, outcome := .blocked }

end Srv

namespace EnvCfg

/- Embedding of the internal env package (Variables, parseMsDuration,
LoadENVVariables) and pkg/env (GetEnvOrDefault).  Go int and time.Duration
are 64-bit signed on the supported targets; arithmetic on them wraps. -/

/-- Error cases of strconv.Atoi: malformed numeral, or a numeral outside
the 64-bit signed range (strconv.ErrRange). -/
inductive AtoiError
  | invalidFormat
  | outOfRange
  deriving DecidableEq, Repr

/-- Decimal value of a digit string. -/
def digitsToNat (cs : List Char) : Nat :=
  cs.foldl (fun acc c => acc * 10 + (c.toNat - Char.toNat char0)) 0
where char0 : Char := Char.ofNat 48

/-- strconv.Atoi on the character list of the input: an optional single
sign, then one or more decimal digits; anything else is a format error,
and a value outside int64 range is a range error. -/
def atoiCore (cs : List Char) : Except AtoiError Int :=
  match cs with
  | [] => .error .invalidFormat
  | c :: rest =>
    let p : Bool × List Char :=
      if c = Char.ofNat 45 then (true, rest)
      else if c = Char.ofNat 43 then (false, rest)
      else (false, cs)
    if p.2 = [] then .error .invalidFormat
    else if p.2.all Char.isDigit then
      let n := digitsToNat p.2
      if p.1 then
        if n ≤ 2 ^ 63 then .ok (-(n : Int)) else .error .outOfRange
      else
        if n ≤ 2 ^ 63 - 1 then .ok (n : Int) else .error .outOfRange
    else .error .invalidFormat

/-- strconv.Atoi. -/
def atoi (s : String) : Except AtoiError Int :=
  atoiCore s.toList

/-- Wrap-around of int64 arithmetic (two's complement). -/
def int64Wrap (x : Int) : Int :=
  (x + 2 ^ 63) % 2 ^ 64 - 2 ^ 63

/-- parseMsDuration: empty input is unset (nil duration, nil error); a
malformed or out-of-range numeral is an error; otherwise the duration is
time.Duration(ms) * time.Millisecond, an int64 product in nanoseconds that
wraps on overflow. -/
def parseMsDuration (val : String) : Except AtoiError (Option Int) :=
  if val = "" then .ok none
  else
    match atoi val with
    | .error e => .error e
    | .ok ms => .ok (some (int64Wrap (ms * 1000000)))

/-- The process environment: os.Getenv, which returns the empty string for
an unset variable. -/
abbrev GoEnv := String → String

/-- GetEnvOrDefault from pkg/env/env.go. -/
def GetEnvOrDefault (genv : GoEnv) (key defaultValue : String) : String :=
  if genv key ≠ "" then genv key else defaultValue

/-- Variables from the internal env package: five strings and five optional
durations (int64 nanoseconds). -/
structure Variables where
  env : String
  dbURI : String
  db : String
  port : String
  moduleName : String
  readTimeoutMs : Option Int
  writeTimeoutMs : Option Int
  shutdownTimeoutMs : Option Int
  idleTimeoutMs : Option Int
  readHeaderTimeoutMs : Option Int
  deriving DecidableEq, Repr

/-- LoadENVVariables: parse the five duration variables (any failure aborts
loading), then build the Variables value with the documented string
defaults.  The dotfile pre-load step (godotenv) touches the file system and
is modelled as having succeeded. -/
def LoadENVVariables (genv : GoEnv) : Except AtoiError Variables := do
  let readTimeoutMs ← parseMsDuration (GetEnvOrDefault genv "READ_TIMEOUT_MS" "")
  let writeTimeoutMs ← parseMsDuration (GetEnvOrDefault genv "WRITE_TIMEOUT_MS" "")
  let shutdownTimeoutMs ← parseMsDuration (GetEnvOrDefault genv "SHUTDOWN_TIMEOUT_MS" "")
  let idleTimeoutMs ← parseMsDuration (GetEnvOrDefault genv "IDLE_TIMEOUT_MS" "")
  let readHeaderTimeoutMs ← parseMsDuration (GetEnvOrDefault genv "READ_HEADER_TIMEOUT_MS" "")
  .ok
    { env := GetEnvOrDefault genv "ENV" "development"
      dbURI := GetEnvOrDefault genv "DB_URI" ""
      db := GetEnvOrDefault genv "DB" ""
      port := GetEnvOrDefault genv "PORT" ":8080"
      moduleName := GetEnvOrDefault genv "MODULE_NAME" ""
      readTimeoutMs := readTimeoutMs
      writeTimeoutMs := writeTimeoutMs
      shutdownTimeoutMs := shutdownTimeoutMs
      idleTimeoutMs := idleTimeoutMs
      readHeaderTimeoutMs := readHeaderTimeoutMs }

/-- Accessor Variables.Env. -/
def Variables.Env (v : Variables) : String := v.env

/-- Accessor Variables.DB_URI. -/
def Variables.DB_URI (v : Variables) : String := v.dbURI

/-- Accessor Variables.DB. -/
def Variables.DB (v : Variables) : String := v.db

/-- Accessor Variables.Port. -/
def Variables.Port (v : Variables) : String := v.port

/-- Accessor Variables.MODULE_NAME. -/
def Variables.MODULE_NAME (v : Variables) : String := v.moduleName

/-- Accessor Variables.READ_TIMEOUT_MS. -/
def Variables.READ_TIMEOUT_MS (v : Variables) : Option Int := v.readTimeoutMs

/-- Accessor Variables.WRITE_TIMEOUT_MS. -/
def Variables.WRITE_TIMEOUT_MS (v : Variables) : Option Int := v.writeTimeoutMs

/-- Accessor Variables.SHUTDOWN_TIMEOUT_MS. -/
def Variables.SHUTDOWN_TIMEOUT_MS (v : Variables) : Option Int := v.shutdownTimeoutMs

/-- Accessor Variables.IDLE_TIMEOUT_MS. -/
def Variables.IDLE_TIMEOUT_MS (v : Variables) : Option Int := v.idleTimeoutMs

/-- Accessor Variables.READ_HEADER_TIMEOUT_MS. -/
def Variables.READ_HEADER_TIMEOUT_MS (v : Variables) : Option Int := v.readHeaderTimeoutMs

end EnvCfg

namespace AuthApi

/- Embedding of the auth routes (internal/auth router + register and login
handlers) and the response envelope (pkg/response/response.go), as far as
the POST /auth/register behavior needs them. -/

/-- A JSON value appearing in a response data map. -/
inductive JSONVal
  | str (s : String)
  | num (n : Int)
  deriving DecidableEq, Repr

/-- The response envelope struct from pkg/response: success, message,
optional data object, optional error string (omitempty on the last two). -/
structure Response where
  success : Bool
  message : String
  data : Option (List (String × JSONVal))
  error : Option String
  deriving DecidableEq, Repr

/-- An HTTP reply as observed by the client: status code and JSON body. -/
structure HttpReply where
  status : Nat
  body : Response
  deriving DecidableEq, Repr

/-- An HTTP request: method, path, and decoded query parameters. -/
structure Request where
  method : String
  path : String
  query : List (String × String)
  deriving DecidableEq, Repr

/-- url.Values.Get: the first value for the key, or the empty string. -/
def queryGet (q : List (String × String)) (k : String) : String :=
  match q.find? (fun p => p.1 = k) with
  | some p => p.2
  | none => ""

/-- SendJSON: write the envelope with the given status. -/
def SendJSON (statusCode : Nat) (response : Response) : HttpReply :=
  { status := statusCode, body := response }

/-- SendSuccess: 200 with success true and the given data. -/
def SendSuccess (message : String) (data : Option (List (String × JSONVal))) :
    HttpReply :=
  SendJSON 200 { success := true, message := message, data := data, error := none }

/-- SendCreated: 201 with success true and the given data. -/
def SendCreated (message : String) (data : Option (List (String × JSONVal))) :
    HttpReply :=
  SendJSON 201 { success := true, message := message, data := data, error := none }

/-- SendUnprocessableEntity: 422 with success false, the validation errors
as data, and error "Validation failed". -/
def SendUnprocessableEntity (message : String)
    (validationErrors : Option (List (String × JSONVal))) : HttpReply :=
  let m := if message = "" then "Unprocessable Entity" else message
  SendJSON 422
    { success := false, message := m, data := validationErrors
      error := some "Validation failed" }

/-- registerHandler from the auth handlers: on query error=validation,
422 with the two validation messages keyed email and password; otherwise
201 with the example user data. -/
def registerHandler (r : Request) : HttpReply :=
  if queryGet r.query "error" = "validation" then
    SendUnprocessableEntity "Validation failed"
      (some [("email", .str "Email is required"),
             ("password", .str "Password must be at least 8 characters")])
  else
    SendCreated "User registered successfully"
      (some [("user_id", .num 124),
             ("email", .str "newuser@example.com"),
             ("message", .str "Please verify your email")])

/-- loginHandler from the auth handlers: 200 with the example user data. -/
def loginHandler (_r : Request) : HttpReply :=
  SendSuccess "Login successful"
    (some [("user_id", .num 123),
           ("email", .str "user@example.com"),
           ("token", .str "jwt-token-here")])

/-- The auth chi router: POST /login and POST /register; anything else is
not matched here (chi then answers 404/405 outside the modelled scope). -/
def authRouterServe (r : Request) : Option HttpReply :=
  if r.method = "POST" ∧ r.path = "/login" then some (loginHandler r)
  else if r.method = "POST" ∧ r.path = "/register" then some (registerHandler r)
  else none

/-- The application router as far as the auth mount is concerned:
router.Mount("/auth", auth.Router()) hands requests under /auth to the auth
router with the mount point stripped from the path. -/
def appServe (r : Request) : Option HttpReply :=
  if r.path.take 5 = "/auth" then
    authRouterServe { r with path := r.path.drop 5 }
  else none

end AuthApi

/- Concrete fixtures used to evaluate the embedded operations on specific
inputs. -/

/-- A pkg/logger instance with two sinks (stdout, file) at minimum level
INFO, as produced by DefaultConfig. -/
def sampleCfgLogger : PkgLogger.JSONLogger :=
  { writers := [0, 1], service := "svc", minLevel := .info }

/-- A request context carrying a trace ID only. -/
def sampleCtx : PkgLogger.GoContext :=
  { traceID := some "t-1", requestID := none }

/-- A heap holding one allocated context map with one field. -/
def sampleHeap : IntLogger.Heap :=
  { maps := [[("app", "boiler")]] }

/-- A derivable logger whose context holds one field. -/
def sampleParent : IntLogger.JSONLogger :=
  { writers := [0, 1], context := some 0, traceID := "", service := "svc"
    minLevel := .info }

/-- A freshly constructed derivable logger: its context map is allocated
empty (make), so its entry count is zero. -/
def emptyParent : IntLogger.JSONLogger :=
  { writers := [0], context := none, traceID := "", service := "svc"
    minLevel := .info }

/-- A fully populated, valid server configuration. -/
def okConfig : Srv.ServerConfig :=
  { app := some (), port := ":8080", middlewareCount := 0
    readTimeout := 15000000000, writeTimeout := 15000000000
    idleTimeout := 60000000000, readHeaderTimeout := 10000000000
    shutdownTimeout := 10000000000, onStartup := none, onShutdown := none
    logger := some () }

/-- okConfig with a nil logger. -/
def nilLoggerConfig : Srv.ServerConfig :=
  { okConfig with logger := none }

/-- A scenario with no signal and no listener failure. -/
def quietScenario : Srv.Scenario :=
  { listenErr := none, signalArrives := false, signalWins := false
    gracefulOk := true, closeOk := true }

/-- A scenario where a termination signal arrives while the listener is
serving and the graceful close completes in time. -/
def signalScenario : Srv.Scenario :=
  { listenErr := none, signalArrives := true, signalWins := true
    gracefulOk := true, closeOk := true }

/-- An environment seeding READ_TIMEOUT_MS with a numeric value whose
product with one million overflows int64. -/
def cexEnv : EnvCfg.GoEnv := fun k =>
  if k = "ENV" then "production"
  else if k = "DB_URI" then "mongodb://localhost:27017"
  else if k = "DB" then "appdb"
  else if k = "PORT" then ":9090"
  else if k = "MODULE_NAME" then "go-boilerplate"
  else if k = "READ_TIMEOUT_MS" then "10000000000000000"
  else ""

/-- A mixed environment: only ENV and READ_TIMEOUT_MS are set, every other
recognized variable is unset. -/
def mixedEnv : EnvCfg.GoEnv := fun k =>
  if k = "ENV" then "staging"
  else if k = "READ_TIMEOUT_MS" then "750"
  else ""

/-- The environment with every variable unset. -/
def emptyEnv : EnvCfg.GoEnv := fun _ => ""

/-- An environment with a non-numeric duration value. -/
def badDurEnv : EnvCfg.GoEnv := fun k =>
  if k = "READ_TIMEOUT_MS" then "abc" else ""

/-- x fits in a signed 64-bit integer. -/
def fitsInt64 (x : Int) : Prop := -(2 ^ 63) ≤ x ∧ x < 2 ^ 63

/- Helper lemmas about the heap of Go maps. -/

namespace IntLogger

theorem listGet_append {xs : List GoMapData} {m : GoMapData} {i : Nat}
    (h : i < xs.length) : listGet (xs ++ [m]) i = listGet xs i := by
  induction xs generalizing i with
  | nil => simp at h
  | cons x rest ih =>
    cases i with
    | zero => rfl
    | succ n =>
      simp only [List.cons_append]
      exact ih (by simpa using Nat.lt_of_succ_lt_succ h)

theorem listGet_ne_nil_lt {xs : List GoMapData} {i : Nat}
    (h : listGet xs i ≠ []) : i < xs.length := by
  induction xs generalizing i with
  | nil => simp [listGet] at h
  | cons x rest ih =>
    cases i with
    | zero => simp
    | succ n => exact Nat.succ_lt_succ (ih h)

theorem listGet_set_ne {xs : List GoMapData} {j i : Nat} {m : GoMapData}
    (h : i ≠ j) : listGet (listSet xs j m) i = listGet xs i := by
  induction xs generalizing i j with
  | nil => rfl
  | cons x rest ih =>
    cases j with
    | zero =>
      cases i with
      | zero => exact absurd rfl h
      | succ n => rfl
    | succ jm =>
      cases i with
      | zero => rfl
      | succ n => exact ih (fun hh => h (by rw [hh]))

theorem read_write_ne {h : Heap} {r2 : MapRef} {k : String} {v : GoValue}
    {h2 : Heap} {r : MapRef} (hw : Heap.write h r2 k v = .ok h2)
    (hne : r ≠ r2) : h2.read r = h.read r := by
  cases r2 with
  | none => simp [Heap.write] at hw
  | some j =>
    simp only [Heap.write, Except.ok.injEq] at hw
    cases r with
    | none => simp [Heap.read]
    | some i =>
      have hij : i ≠ j := fun hh => hne (by rw [hh])
      simp [Heap.read, ← hw, listGet_set_ne hij]

theorem writeFields_read_ne {fs : GoMapData} :
    ∀ {h : Heap} {r2 : MapRef} {h2 : Heap} {r : MapRef},
      writeFields h r2 fs = .ok h2 → r ≠ r2 → h2.read r = h.read r := by
  induction fs with
  | nil =>
    intro h r2 h2 r hw hne
    simp only [writeFields, Except.ok.injEq] at hw
    rw [hw]
  | cons kv rest ih =>
    intro h r2 h2 r hw hne
    simp only [writeFields] at hw
    rcases hstep : Heap.write h r2 kv.1 kv.2 with e | h3
    · rw [hstep] at hw; cases hw
    · rw [hstep] at hw
      exact (ih hw hne).trans (read_write_ne hstep hne)

theorem writeFields_some_ok (fs : GoMapData) :
    ∀ (h : Heap) (j : Nat), ∃ h2, writeFields h (some j) fs = .ok h2 := by
  induction fs with
  | nil => intro h j; exact ⟨h, rfl⟩
  | cons kv rest ih =>
    intro h j
    obtain ⟨h2, hh⟩ :=
      ih { maps := listSet h.maps j (mapAssign (listGet h.maps j) kv.1 kv.2) } j
    exact ⟨h2, by simp only [writeFields, Heap.write]; exact hh⟩

theorem entryContext_congr {h h2 : Heap} {l : JSONLogger}
    (hr : h2.read l.context = h.read l.context) :
    entryContext h2 l = entryContext h l := by
  simp [entryContext, hr]

theorem log_congr {h h2 : Heap} {l : JSONLogger} {now msg : String}
    {level : PkgLogger.LogLevel} (hr : h2.read l.context = h.read l.context) :
    log h2 l now level msg = log h l now level msg := by
  simp [log, entryContext_congr hr]

theorem clone_writers (h : Heap) (l : JSONLogger) :
    (clone h l).1.writers = l.writers := rfl

theorem clone_cases (h : Heap) (l : JSONLogger) :
    (h.read l.context = [] ∧ (clone h l).1.context = none ∧ (clone h l).2 = h) ∨
    (h.read l.context ≠ [] ∧ (clone h l).1.context = some h.maps.length ∧
      (clone h l).2 = { maps := h.maps ++ [h.read l.context] }) := by
  by_cases he : h.read l.context = []
  · exact Or.inl ⟨he, by simp [clone, copyContext, he], by simp [clone, copyContext, he]⟩
  · exact Or.inr ⟨he, by simp [clone, copyContext, he, Heap.alloc],
      by simp [clone, copyContext, he, Heap.alloc]⟩

theorem context_some_of_read_ne_nil {h : Heap} {l : JSONLogger}
    (he : h.read l.context ≠ []) :
    ∃ i, l.context = some i ∧ i < h.maps.length := by
  cases hc : l.context with
  | none => rw [hc] at he; simp [Heap.read] at he
  | some i =>
    rw [hc] at he
    exact ⟨i, rfl, listGet_ne_nil_lt he⟩

theorem read_append_parent {h : Heap} {l : JSONLogger} {m : GoMapData}
    (he : h.read l.context ≠ []) :
    (Heap.mk (h.maps ++ [m])).read l.context = h.read l.context := by
  obtain ⟨i, hc, hi⟩ := context_some_of_read_ne_nil he
  simp [Heap.read, hc, listGet_append hi]

theorem clone_read_parent (h : Heap) (l : JSONLogger) :
    ((clone h l).2).read l.context = h.read l.context := by
  rcases clone_cases h l with ⟨he, hcc, hh⟩ | ⟨he, hcc, hh⟩
  · rw [hh]
  · rw [hh]
    exact read_append_parent he

theorem clone_context_ne_parent {h : Heap} {l : JSONLogger}
    (he : h.read l.context ≠ []) : (clone h l).1.context ≠ l.context := by
  rcases clone_cases h l with ⟨he2, _, _⟩ | ⟨_, hcc, _⟩
  · exact absurd he2 he
  · rw [hcc]
    obtain ⟨i, hc, hi⟩ := context_some_of_read_ne_nil he
    rw [hc]
    intro hh
    exact absurd (Option.some.inj hh).symm (Nat.ne_of_lt hi)

end IntLogger

/-- Mapping each element to a pair with a constant and projecting back is
the identity. -/
theorem map_fst_pair_const {α β : Type} (xs : List α) (e : β) :
    List.map (Prod.fst ∘ fun w => (w, e)) xs = xs := by
  induction xs with
  | nil => rfl
  | cons x t ih => simpa using ih

/-- C1: for every configured minimum level and every severity, a log call
whose severity ranks below the minimum produces zero sink writes, and one
whose severity ranks at or above the minimum produces exactly one write to
each configured sink, in sink order. -/
theorem c1_level_filtering (l : PkgLogger.JSONLogger) (now : String)
    (ctx : PkgLogger.GoContext) (level : PkgLogger.LogLevel) (msg : String) :
    (PkgLogger.levelIndex level < PkgLogger.levelIndex l.minLevel →
      (PkgLogger.log l now ctx level msg).writes = []) ∧
    (PkgLogger.levelIndex l.minLevel ≤ PkgLogger.levelIndex level →
      ((PkgLogger.log l now ctx level msg).writes.map Prod.fst) = l.writers) := by
  constructor
  · intro h
    have hs : PkgLogger.shouldLog l level = false := by
      simp [PkgLogger.shouldLog]
      omega
    simp [PkgLogger.log, hs]
  · intro h
    have hs : PkgLogger.shouldLog l level = true := by
      simp [PkgLogger.shouldLog, h]
    simp [PkgLogger.log, hs, map_fst_pair_const]

/-- C1 witness: with minimum level INFO, a DEBUG call writes nothing and an
ERROR call writes once to each of the two sinks. -/
theorem c1_level_filtering_witness :
    (PkgLogger.log sampleCfgLogger "ts" sampleCtx .debug "m").writes = [] ∧
    ((PkgLogger.log sampleCfgLogger "ts" sampleCtx .error "m").writes.map
      Prod.fst) = sampleCfgLogger.writers :=
  ⟨(c1_level_filtering sampleCfgLogger "ts" sampleCtx .debug "m").1 (by decide),
   (c1_level_filtering sampleCfgLogger "ts" sampleCtx .error "m").2 (by decide)⟩

/-- C6: in both logger variants, a log call reaches process termination
(os.Exit) exactly when its level is FATAL, for every configured minimum
level; DEBUG, INFO, WARN and ERROR calls always return normally. -/
theorem c6_fatal_only_exit (l : PkgLogger.JSONLogger) (hp : IntLogger.Heap)
    (l2 : IntLogger.JSONLogger) (now : String) (ctx : PkgLogger.GoContext)
    (level : PkgLogger.LogLevel) (msg : String) :
    ((PkgLogger.log l now ctx level msg).exited = true ↔
      level = PkgLogger.LogLevel.fatal) ∧
    ((IntLogger.log hp l2 now level msg).exited = true ↔
      level = PkgLogger.LogLevel.fatal) := by
  constructor
  · cases level <;> cases hm : l.minLevel <;>
      simp [PkgLogger.log, PkgLogger.shouldLog, PkgLogger.levelIndex, hm]
  · cases level <;> cases hm : l2.minLevel <;>
      simp [IntLogger.log, IntLogger.shouldLog, PkgLogger.levelIndex, hm]

/-- C2: deriving a child logger through WithTraceID, WithField or
WithContext leaves the parent untouched: whenever the derivation returns,
the child shares the writer list but its context reference is nil or
distinct from the parent map, and a log call on the parent after the
derivation produces exactly the same outcome (same context included) as
one before it. -/
theorem c2_derivation_frame (h : IntLogger.Heap) (l : IntLogger.JSONLogger)
    (fields : IntLogger.GoMapData) (k tid now msg : String)
    (v : IntLogger.GoValue) (level : PkgLogger.LogLevel) :
    (∀ c h2, IntLogger.WithTraceID h l tid = (c, h2) →
      c.writers = l.writers ∧ (c.context = none ∨ c.context ≠ l.context) ∧
      IntLogger.log h2 l now level msg = IntLogger.log h l now level msg) ∧
    (∀ c h2, IntLogger.WithField h l k v = .ok (c, h2) →
      c.writers = l.writers ∧ c.context ≠ l.context ∧
      IntLogger.log h2 l now level msg = IntLogger.log h l now level msg) ∧
    (∀ c h2, IntLogger.WithContext h l fields = .ok (c, h2) →
      c.writers = l.writers ∧ (c.context = none ∨ c.context ≠ l.context) ∧
      IntLogger.log h2 l now level msg = IntLogger.log h l now level msg) := by
  refine ⟨?_, ?_, ?_⟩
  · intro c h2 hEq
    simp only [IntLogger.WithTraceID, Prod.mk.injEq] at hEq
    obtain ⟨hc, hh⟩ := hEq
    subst hh
    constructor
    · rw [← hc]
      exact IntLogger.clone_writers h l
    constructor
    · rcases IntLogger.clone_cases h l with ⟨_, hcc, _⟩ | ⟨he, _, _⟩
      · exact Or.inl (by rw [← hc]; exact hcc)
      · exact Or.inr (by rw [← hc]; exact IntLogger.clone_context_ne_parent he)
    · exact IntLogger.log_congr (IntLogger.clone_read_parent h l)
  · intro c h2 hEq
    simp only [IntLogger.WithField] at hEq
    rcases IntLogger.clone_cases h l with ⟨he, hcc, hh⟩ | ⟨he, hcc, hh⟩
    · rw [hcc, hh] at hEq
      simp [IntLogger.Heap.write] at hEq
    · rw [hcc, hh] at hEq
      simp only [IntLogger.Heap.write, Except.ok.injEq, Prod.mk.injEq] at hEq
      obtain ⟨hc, hh2⟩ := hEq
      obtain ⟨i, hctx, hi⟩ := IntLogger.context_some_of_read_ne_nil he
      refine ⟨by rw [← hc]; exact IntLogger.clone_writers h l, ?_, ?_⟩
      · rw [← hc, hcc, hctx]
        intro hx
        exact absurd (Option.some.inj hx).symm (Nat.ne_of_lt hi)
      · refine IntLogger.log_congr ?_
        rw [← hh2]
        have hr1 : (IntLogger.Heap.mk
            (IntLogger.listSet (h.maps ++ [h.read l.context]) h.maps.length
              (IntLogger.mapAssign
                (IntLogger.listGet (h.maps ++ [h.read l.context]) h.maps.length)
                k v))).read l.context = (IntLogger.Heap.mk
            (h.maps ++ [h.read l.context])).read l.context := by
          simp [IntLogger.Heap.read, hctx,
            IntLogger.listGet_set_ne (Nat.ne_of_lt hi)]
        exact hr1.trans (IntLogger.read_append_parent he)
  · intro c h2 hEq
    simp only [IntLogger.WithContext] at hEq
    rcases IntLogger.clone_cases h l with ⟨he, hcc, hh⟩ | ⟨he, hcc, hh⟩
    · rw [hcc, hh] at hEq
      cases fields with
      | nil =>
        simp only [IntLogger.writeFields, Except.ok.injEq, Prod.mk.injEq] at hEq
        obtain ⟨hc, hh2⟩ := hEq
        subst hh2
        exact ⟨by rw [← hc]; exact IntLogger.clone_writers h l,
          Or.inl (by rw [← hc]; exact hcc), rfl⟩
      | cons kv rest =>
        simp [IntLogger.writeFields, IntLogger.Heap.write] at hEq
    · rw [hcc, hh] at hEq
      rcases hw : IntLogger.writeFields
          (IntLogger.Heap.mk (h.maps ++ [h.read l.context]))
          (some h.maps.length) fields with e | h3
      · rw [hw] at hEq; cases hEq
      · rw [hw] at hEq
        simp only [Except.ok.injEq, Prod.mk.injEq] at hEq
        obtain ⟨hc, hh2⟩ := hEq
        subst hh2
        obtain ⟨i, hctx, hi⟩ := IntLogger.context_some_of_read_ne_nil he
        refine ⟨by rw [← hc]; exact IntLogger.clone_writers h l, ?_, ?_⟩
        · refine Or.inr ?_
          rw [← hc, hcc, hctx]
          intro hx
          exact absurd (Option.some.inj hx).symm (Nat.ne_of_lt hi)
        · refine IntLogger.log_congr ?_
          have hne : l.context ≠ some h.maps.length := by
            rw [hctx]
            intro hx
            exact absurd (Option.some.inj hx) (Nat.ne_of_lt hi)
          exact (IntLogger.writeFields_read_ne hw hne).trans
            (IntLogger.read_append_parent he)

/-- C2 witness: deriving with WithField from a one-field parent succeeds,
keeps the shared writers, yields a distinct context map, and leaves the
outcome of a parent INFO log call unchanged. -/
theorem c2_derivation_frame_witness :
    ({ writers := [0, 1], context := some 1, traceID := "", service := "svc"
       minLevel := .info } : IntLogger.JSONLogger).writers =
        sampleParent.writers ∧
    ({ writers := [0, 1], context := some 1, traceID := "", service := "svc"
       minLevel := .info } : IntLogger.JSONLogger).context ≠
        sampleParent.context ∧
    IntLogger.log
      { maps := [[("app", "boiler")], [("app", "boiler"), ("rk", "rv")]] }
      sampleParent "ts" .info "m" =
    IntLogger.log sampleHeap sampleParent "ts" .info "m" :=
  (c2_derivation_frame sampleHeap sampleParent [] "rk" "t1" "ts" "m" "rv"
    .info).2.1
    { writers := [0, 1], context := some 1, traceID := "", service := "svc"
      minLevel := .info }
    { maps := [[("app", "boiler")], [("app", "boiler"), ("rk", "rv")]] }
    (by decide)

/-- C10: deriving via WithField or WithContext from a logger whose context
holds zero fields is a nil-map write panic (copyContext returns nil there),
while on a parent carrying at least one context field both derivations
succeed. -/
theorem c10_empty_context_derivation (h : IntLogger.Heap)
    (l : IntLogger.JSONLogger) (k : String) (v : IntLogger.GoValue)
    (f : String × IntLogger.GoValue) (fs : IntLogger.GoMapData) :
    (h.read l.context = [] → (IntLogger.copyContext h l).1 = none) ∧
    (h.read l.context = [] →
      IntLogger.WithField h l k v = .error GoPanic.nilMapWrite) ∧
    (h.read l.context = [] →
      IntLogger.WithContext h l (f :: fs) = .error GoPanic.nilMapWrite) ∧
    (h.read l.context ≠ [] →
      (∃ c h2, IntLogger.WithField h l k v = .ok (c, h2)) ∧
      (∃ c h2, IntLogger.WithContext h l (f :: fs) = .ok (c, h2))) := by
  refine ⟨?_, ?_, ?_, ?_⟩
  · intro he
    simp [IntLogger.copyContext, he]
  · intro he
    rcases IntLogger.clone_cases h l with ⟨_, hcc, hh⟩ | ⟨he2, _, _⟩
    · simp [IntLogger.WithField, hcc, hh, IntLogger.Heap.write]
    · exact absurd he he2
  · intro he
    rcases IntLogger.clone_cases h l with ⟨_, hcc, hh⟩ | ⟨he2, _, _⟩
    · simp [IntLogger.WithContext, hcc, hh, IntLogger.writeFields,
        IntLogger.Heap.write]
    · exact absurd he he2
  · intro he
    rcases IntLogger.clone_cases h l with ⟨he2, _, _⟩ | ⟨_, hcc, hh⟩
    · exact absurd he2 he
    · constructor
      · refine ⟨(IntLogger.clone h l).1,
          IntLogger.Heap.mk
            (IntLogger.listSet (h.maps ++ [h.read l.context]) h.maps.length
              (IntLogger.mapAssign
                (IntLogger.listGet (h.maps ++ [h.read l.context])
                  h.maps.length) k v)), ?_⟩
        simp [IntLogger.WithField, hcc, hh, IntLogger.Heap.write]
      · obtain ⟨h3, hw⟩ := IntLogger.writeFields_some_ok (f :: fs)
          (IntLogger.Heap.mk (h.maps ++ [h.read l.context])) h.maps.length
        refine ⟨(IntLogger.clone h l).1, h3, ?_⟩
        simp [IntLogger.WithContext, hcc, hh, hw]

namespace Srv

theorem validate_not_in_startup (c : ServerConfig) (sc : Scenario) :
    Event.validate ∉ (startupPhase c sc).1 := by
  rcases hO : c.onStartup with _ | (_ | e) <;>
    rcases hl : sc.listenErr with _ | e2 <;>
    simp [startupPhase, hO, hl]

theorem validate_not_in_shutdown (c : ServerConfig) (sc : Scenario) :
    Event.validate ∉ shutdownEvents c sc := by
  rcases hs : c.onShutdown with _ | (_ | e) <;> cases hg : sc.gracefulOk <;>
    simp [shutdownEvents, hs, hg]

theorem hook_not_in_closeTail (sc : Scenario) :
    Event.shutdownHook ∉
      (if sc.gracefulOk then [Event.shutdownRequested]
       else [Event.shutdownRequested, Event.forceClose]) := by
  cases hg : sc.gracefulOk <;> simp

theorem requested_in_closeTail (sc : Scenario) :
    Event.shutdownRequested ∈
      (if sc.gracefulOk then [Event.shutdownRequested]
       else [Event.shutdownRequested, Event.forceClose]) := by
  cases hg : sc.gracefulOk <;> simp

end Srv

/-- C3: with a nil logger, Validate panics on its first logging call (a nil
interface method call) instead of returning the nil-logger validation
error; with a non-nil logger it returns nil exactly when the app is
non-nil, the port is non-empty and the shutdown timeout is positive; and
on a valid configuration every execution validates exactly once, at the
start, before any other event. -/
theorem c3_validate_nil_logger_panic (c : Srv.ServerConfig)
    (sc : Srv.Scenario) :
    (Srv.Validate nilLoggerConfig = .error GoPanic.nilInterfaceCall) ∧
    (c.logger ≠ none →
      (Srv.Validate c = .ok none ↔
        (c.app ≠ none ∧ c.port ≠ "" ∧ 0 < c.shutdownTimeout))) ∧
    (Srv.Validate c = .ok none →
      ∃ t, (Srv.run c sc).trace = .validate :: t ∧
        Srv.Event.validate ∉ t) := by
  refine ⟨by decide, ?_, ?_⟩
  · intro hl
    by_cases ha : c.app = none
    · simp [Srv.Validate, hl, ha]
    · by_cases hp : c.port = ""
      · simp [Srv.Validate, hl, ha, hp]
      · by_cases hs : c.shutdownTimeout ≤ 0
        · simp only [Srv.Validate, hl, ha, hp, hs, if_false, if_true,
            reduceIte]
          constructor
          · intro hh; cases hh
          · intro hh; omega
        · simp only [Srv.Validate, hl, ha, hp, hs, if_false, reduceIte]
          constructor
          · intro _; exact ⟨ha, hp, by omega⟩
          · intro _; trivial
  · intro hv
    have h1 := Srv.validate_not_in_startup c sc
    have h2 := Srv.validate_not_in_shutdown c sc
    simp only [Srv.run, hv]
    rcases hg : (Srv.startupPhase c sc).2 with _ | e <;>
      cases hsa : sc.signalArrives <;> cases hsw : sc.signalWins <;>
      simp only [hg, hsa, hsw] <;>
      exact ⟨_, rfl, by simp_all [List.mem_append]⟩

/-- C3 witness: on a fully populated configuration with a non-nil logger,
validation succeeds and every run validates once before anything else. -/
theorem c3_validate_nil_logger_panic_witness :
    (Srv.Validate okConfig = .ok none ↔
      (okConfig.app ≠ none ∧ okConfig.port ≠ "" ∧
        0 < okConfig.shutdownTimeout)) ∧
    (∃ t, (Srv.run okConfig quietScenario).trace = .validate :: t ∧
      Srv.Event.validate ∉ t) :=
  ⟨(c3_validate_nil_logger_panic okConfig quietScenario).2.1 (by decide),
   (c3_validate_nil_logger_panic okConfig quietScenario).2.2 (by decide)⟩

/-- C4: when the startup hook is present and fails, the listener is never
invoked, the failure is delivered through the server-error channel (an
errorSent event, not a panic), and BuildAndStartServer returns the wrapped
hook error. -/
theorem c4_startup_hook_abort (c : Srv.ServerConfig) (sc : Srv.Scenario)
    (e : String) (hhook : c.onStartup = some (some e))
    (hval : Srv.Validate c = .ok none)
    (hsel : sc.signalArrives = false ∨ sc.signalWins = false) :
    Srv.Event.listen ∉ (Srv.run c sc).trace ∧
    Srv.Event.errorSent ("startup hook failed: " ++ e) ∈
      (Srv.run c sc).trace ∧
    (Srv.run c sc).outcome =
      .returned (some ("startup hook failed: " ++ e)) := by
  have hg : Srv.startupPhase c sc =
      ([.startupHook, .errorSent ("startup hook failed: " ++ e)],
       some ("startup hook failed: " ++ e)) := by
    simp [Srv.startupPhase, hhook]
  simp only [Srv.run, hval, hg]
  rcases hsel with h1 | h1
  · simp [h1]
  · cases hsa : sc.signalArrives <;> simp [h1, hsa]

/-- C4 witness: a failing startup hook on an otherwise valid configuration
aborts the run with the wrapped hook error and no listen event. -/
theorem c4_startup_hook_abort_witness :
    Srv.Event.listen ∉
      (Srv.run { okConfig with onStartup := some (some "boom") }
        quietScenario).trace ∧
    Srv.Event.errorSent ("startup hook failed: " ++ "boom") ∈
      (Srv.run { okConfig with onStartup := some (some "boom") }
        quietScenario).trace ∧
    (Srv.run { okConfig with onStartup := some (some "boom") }
      quietScenario).outcome =
      .returned (some ("startup hook failed: " ++ "boom")) :=
  c4_startup_hook_abort _ _ "boom" rfl (by decide) (Or.inl rfl)

/-- C5: on a signal-triggered shutdown after the listener has started, the
shutdown hook runs exactly once, before the graceful close is requested,
and a shutdown-hook error changes neither the shutdown outcome nor the
returned value. -/
theorem c5_shutdown_hook_once (c : Srv.ServerConfig) (sc : Srv.Scenario)
    (hres : Option String)
    (hval : Srv.Validate c = .ok none)
    (hstart : ∀ e, c.onStartup ≠ some (some e))
    (hlisten : sc.listenErr = none)
    (hsig : sc.signalArrives = true)
    (hhook : c.onShutdown = some hres) :
    (∃ t1 t2, (Srv.run c sc).trace = t1 ++ Srv.Event.shutdownHook :: t2 ∧
      Srv.Event.shutdownHook ∉ t1 ∧ Srv.Event.shutdownHook ∉ t2 ∧
      Srv.Event.shutdownRequested ∉ t1 ∧
      Srv.Event.shutdownRequested ∈ t2) ∧
    (∀ e2, (Srv.run { c with onShutdown := some (some e2) } sc).outcome =
      (Srv.run { c with onShutdown := some none } sc).outcome) := by
  have hO : c.onStartup = none ∨ c.onStartup = some none := by
    rcases hx : c.onStartup with _ | (_ | e3)
    · exact Or.inl rfl
    · exact Or.inr rfl
    · exact absurd hx (hstart e3)
  have hg : (Srv.startupPhase c sc).2 = none ∧
      Srv.Event.shutdownHook ∉ (Srv.startupPhase c sc).1 ∧
      Srv.Event.shutdownRequested ∉ (Srv.startupPhase c sc).1 := by
    rcases hO with h | h <;> simp [Srv.startupPhase, h, hlisten]
  constructor
  · have ht1 := Srv.hook_not_in_closeTail sc
    have ht2 := Srv.requested_in_closeTail sc
    rcases hres with _ | e4
    · have hse : Srv.shutdownEvents c sc =
          Srv.Event.shutdownHook ::
            (if sc.gracefulOk then [Srv.Event.shutdownRequested]
             else [Srv.Event.shutdownRequested, Srv.Event.forceClose]) := by
        simp [Srv.shutdownEvents, hhook]
      simp only [Srv.run, hval, hg.1, hsig]
      refine ⟨.validate :: (Srv.startupPhase c sc).1 ++ [.signalReceived],
        (if sc.gracefulOk then [Srv.Event.shutdownRequested]
         else [Srv.Event.shutdownRequested, Srv.Event.forceClose]),
        ?_, ?_, ?_, ?_, ?_⟩
      · rw [hse]
      · simp [List.mem_append, hg.2.1]
      · exact ht1
      · simp [List.mem_append, hg.2.2]
      · exact ht2
    · have hse : Srv.shutdownEvents c sc =
          Srv.Event.shutdownHook :: Srv.Event.shutdownHookErrorLogged e4 ::
            (if sc.gracefulOk then [Srv.Event.shutdownRequested]
             else [Srv.Event.shutdownRequested, Srv.Event.forceClose]) := by
        simp [Srv.shutdownEvents, hhook]
      simp only [Srv.run, hval, hg.1, hsig]
      refine ⟨.validate :: (Srv.startupPhase c sc).1 ++ [.signalReceived],
        Srv.Event.shutdownHookErrorLogged e4 ::
          (if sc.gracefulOk then [Srv.Event.shutdownRequested]
           else [Srv.Event.shutdownRequested, Srv.Event.forceClose]),
        ?_, ?_, ?_, ?_, ?_⟩
      · rw [hse]
      · simp [List.mem_append, hg.2.1]
      · simp [List.mem_cons, ht1]
      · simp [List.mem_append, hg.2.2]
      · exact List.mem_cons_of_mem _ ht2
  · intro e2
    have hv1 : Srv.Validate { c with onShutdown := some (some e2) } =
        .ok none := hval
    have hv2 : Srv.Validate { c with onShutdown := some none } =
        .ok none := hval
    have hg1 : (Srv.startupPhase
        { c with onShutdown := some (some e2) } sc).2 = none := hg.1
    have hg2 : (Srv.startupPhase
        { c with onShutdown := some none } sc).2 = none := hg.1
    simp only [Srv.run, hv1, hv2, hg1, hg2, hsig]

/-- C5 witness: with a present succeeding shutdown hook, a signal-triggered
shutdown runs the hook once before the close request, and a failing hook
would not change the returned value. -/
theorem c5_shutdown_hook_once_witness :
    (∃ t1 t2, (Srv.run { okConfig with onShutdown := some none }
        signalScenario).trace = t1 ++ Srv.Event.shutdownHook :: t2 ∧
      Srv.Event.shutdownHook ∉ t1 ∧ Srv.Event.shutdownHook ∉ t2 ∧
      Srv.Event.shutdownRequested ∉ t1 ∧
      Srv.Event.shutdownRequested ∈ t2) ∧
    (∀ e2, (Srv.run { { okConfig with onShutdown := some none } with
        onShutdown := some (some e2) } signalScenario).outcome =
      (Srv.run { { okConfig with onShutdown := some none } with
        onShutdown := some none } signalScenario).outcome) :=
  c5_shutdown_hook_once { okConfig with onShutdown := some none }
    signalScenario none (by decide) (fun e h => Option.noConfusion h)
    rfl rfl rfl

namespace EnvCfg

theorem int64Wrap_eq_self {x : Int} (h1 : -(2 ^ 63) ≤ x) (h2 : x < 2 ^ 63) :
    int64Wrap x = x := by
  have e1 : (2 : Int) ^ 63 = 9223372036854775808 := by norm_num
  have e2 : (2 : Int) ^ 64 = 18446744073709551616 := by norm_num
  unfold int64Wrap
  rw [e1] at h1 h2 ⊢
  rw [e2]
  rw [Int.emod_eq_of_lt (by omega) (by omega)]
  omega

theorem atoi_empty : atoi "" = .error .invalidFormat := rfl

theorem atoi_ok_ne_empty {s : String} {v : Int} (h : atoi s = .ok v) :
    s ≠ "" := by
  intro he
  rw [he, atoi_empty] at h
  exact Except.noConfusion h

theorem parseMsDuration_error {s : String} {err : AtoiError}
    (h : atoi s = .error err) (hne : s ≠ "") :
    parseMsDuration s = .error err := by
  simp [parseMsDuration, hne, h]

theorem parseMsDuration_ok {s : String} {v : Int} (h : atoi s = .ok v)
    (hf : fitsInt64 (v * 1000000)) :
    parseMsDuration s = .ok (some (v * 1000000)) := by
  simp [parseMsDuration, atoi_ok_ne_empty h, h, int64Wrap_eq_self hf.1 hf.2]

theorem GetEnvOrDefault_eq_ite (genv : GoEnv) (key dv : String) :
    GetEnvOrDefault genv key dv =
      if genv key = "" then dv else genv key := by
  by_cases h : genv key = "" <;> simp [GetEnvOrDefault, h]

theorem parseMs_cases (genv : GoEnv) (key : String)
    (h : genv key = "" ∨
      ∃ v, atoi (genv key) = .ok v ∧ fitsInt64 (v * 1000000)) :
    ∃ oi, parseMsDuration (GetEnvOrDefault genv key "") = .ok oi ∧
      (genv key = "" → oi = none) ∧
      (∀ v, atoi (genv key) = .ok v → fitsInt64 (v * 1000000) →
        oi = some (v * 1000000)) := by
  by_cases he : genv key = ""
  · refine ⟨none, ?_, fun _ => rfl, ?_⟩
    · rw [GetEnvOrDefault_eq_ite, if_pos he]
      rfl
    · intro v hv _
      rw [he, atoi_empty] at hv
      exact Except.noConfusion hv
  · rcases h with h | ⟨v0, hv0, hf0⟩
    · exact absurd h he
    · refine ⟨some (v0 * 1000000), ?_, fun hh => absurd hh he, ?_⟩
      · rw [GetEnvOrDefault_eq_ite, if_neg he]
        exact parseMsDuration_ok hv0 hf0
      · intro v hv hf
        have hvv : v0 = v := Except.ok.inj (hv0.symm.trans hv)
        rw [hvv]

end EnvCfg

/-- C7 counterexample: the numeric value 10^16 does not yield a duration of
10^16 milliseconds; the int64 multiplication by one million wraps, so
parseMsDuration returns 1864712049423024128 nanoseconds instead of
10^16 times 10^6. -/
theorem c7_duration_parse_cex :
    EnvCfg.parseMsDuration "10000000000000000" =
      .ok (some 1864712049423024128) ∧
    (1864712049423024128 : Int) ≠ 10000000000000000 * 1000000 :=
  ⟨by rfl, by decide⟩

/-- C7 (amended): an empty duration variable is unset (nil duration, no
error); a non-numeric or out-of-int64-range non-empty value is an error,
which makes configuration loading fail; and a numeric value v whose
millisecond-to-nanosecond product fits in int64 yields a duration of
exactly v milliseconds (otherwise the int64 product wraps). -/
theorem c7_duration_parse (s : String) (v : Int) (err : EnvCfg.AtoiError)
    (genv : EnvCfg.GoEnv) :
    (EnvCfg.parseMsDuration "" = .ok none) ∧
    (EnvCfg.atoi s = .error err → s ≠ "" →
      EnvCfg.parseMsDuration s = .error err) ∧
    (EnvCfg.atoi s = .ok v → fitsInt64 (v * 1000000) →
      EnvCfg.parseMsDuration s = .ok (some (v * 1000000))) ∧
    (genv "READ_TIMEOUT_MS" ≠ "" →
      EnvCfg.atoi (genv "READ_TIMEOUT_MS") = .error err →
      EnvCfg.LoadENVVariables genv = .error err) := by
  refine ⟨rfl, ?_, ?_, ?_⟩
  · exact fun h hne => EnvCfg.parseMsDuration_error h hne
  · exact fun h hf => EnvCfg.parseMsDuration_ok h hf
  · intro hne herr
    have hk : EnvCfg.GetEnvOrDefault genv "READ_TIMEOUT_MS" "" =
        genv "READ_TIMEOUT_MS" := by
      simp [EnvCfg.GetEnvOrDefault, hne]
    have hp : EnvCfg.parseMsDuration
        (EnvCfg.GetEnvOrDefault genv "READ_TIMEOUT_MS" "") = .error err := by
      rw [hk]
      exact EnvCfg.parseMsDuration_error herr hne
    simp [EnvCfg.LoadENVVariables, hp, Bind.bind, Except.bind]

/-- C7 witness: a non-numeric value is an error and fails loading, and an
in-range numeric value yields exactly that many milliseconds. -/
theorem c7_duration_parse_witness :
    EnvCfg.parseMsDuration "abc" = .error .invalidFormat ∧
    EnvCfg.parseMsDuration "250" = .ok (some (250 * 1000000)) ∧
    EnvCfg.LoadENVVariables badDurEnv = .error .invalidFormat :=
  ⟨(c7_duration_parse "abc" 0 .invalidFormat badDurEnv).2.1 (by rfl)
     (by decide),
   (c7_duration_parse "250" 250 .invalidFormat badDurEnv).2.2.1 (by rfl)
     (by constructor <;> decide),
   (c7_duration_parse "x" 0 .invalidFormat badDurEnv).2.2.2 (by decide)
     (by rfl)⟩

/-- C8 counterexample: seeding READ_TIMEOUT_MS with the non-empty numeric
value 10^16, the accessor does not read back a duration of 10^16
milliseconds: the int64 nanosecond product wraps. -/
theorem c8_settings_roundtrip_cex :
    (EnvCfg.LoadENVVariables cexEnv).map EnvCfg.Variables.READ_TIMEOUT_MS =
      .ok (some 1864712049423024128) ∧
    (1864712049423024128 : Int) ≠ 10000000000000000 * 1000000 :=
  ⟨by rfl, by decide⟩

/-- C8 (amended): for every environment whose duration variables are each
either empty or numeric with a non-overflowing nanosecond product,
constructing the settings succeeds and each accessor is settled per
variable: it returns the seeded value when that variable is non-empty
(durations as the seeded number of milliseconds) and the documented
default when that variable is unset or empty (development, :8080, empty
strings, unset durations). -/
theorem c8_settings_roundtrip (genv : EnvCfg.GoEnv)
    (hr : genv "READ_TIMEOUT_MS" = "" ∨
      ∃ v, EnvCfg.atoi (genv "READ_TIMEOUT_MS") = .ok v ∧
        fitsInt64 (v * 1000000))
    (hw : genv "WRITE_TIMEOUT_MS" = "" ∨
      ∃ v, EnvCfg.atoi (genv "WRITE_TIMEOUT_MS") = .ok v ∧
        fitsInt64 (v * 1000000))
    (hs : genv "SHUTDOWN_TIMEOUT_MS" = "" ∨
      ∃ v, EnvCfg.atoi (genv "SHUTDOWN_TIMEOUT_MS") = .ok v ∧
        fitsInt64 (v * 1000000))
    (hi : genv "IDLE_TIMEOUT_MS" = "" ∨
      ∃ v, EnvCfg.atoi (genv "IDLE_TIMEOUT_MS") = .ok v ∧
        fitsInt64 (v * 1000000))
    (hh : genv "READ_HEADER_TIMEOUT_MS" = "" ∨
      ∃ v, EnvCfg.atoi (genv "READ_HEADER_TIMEOUT_MS") = .ok v ∧
        fitsInt64 (v * 1000000)) :
    ∃ w, EnvCfg.LoadENVVariables genv = .ok w ∧
      w.Env = (if genv "ENV" = "" then "development" else genv "ENV") ∧
      w.DB_URI = (if genv "DB_URI" = "" then "" else genv "DB_URI") ∧
      w.DB = (if genv "DB" = "" then "" else genv "DB") ∧
      w.Port = (if genv "PORT" = "" then ":8080" else genv "PORT") ∧
      w.MODULE_NAME =
        (if genv "MODULE_NAME" = "" then "" else genv "MODULE_NAME") ∧
      (genv "READ_TIMEOUT_MS" = "" → w.READ_TIMEOUT_MS = none) ∧
      (∀ v, EnvCfg.atoi (genv "READ_TIMEOUT_MS") = .ok v →
        fitsInt64 (v * 1000000) → w.READ_TIMEOUT_MS = some (v * 1000000)) ∧
      (genv "WRITE_TIMEOUT_MS" = "" → w.WRITE_TIMEOUT_MS = none) ∧
      (∀ v, EnvCfg.atoi (genv "WRITE_TIMEOUT_MS") = .ok v →
        fitsInt64 (v * 1000000) → w.WRITE_TIMEOUT_MS = some (v * 1000000)) ∧
      (genv "SHUTDOWN_TIMEOUT_MS" = "" → w.SHUTDOWN_TIMEOUT_MS = none) ∧
      (∀ v, EnvCfg.atoi (genv "SHUTDOWN_TIMEOUT_MS") = .ok v →
        fitsInt64 (v * 1000000) →
        w.SHUTDOWN_TIMEOUT_MS = some (v * 1000000)) ∧
      (genv "IDLE_TIMEOUT_MS" = "" → w.IDLE_TIMEOUT_MS = none) ∧
      (∀ v, EnvCfg.atoi (genv "IDLE_TIMEOUT_MS") = .ok v →
        fitsInt64 (v * 1000000) → w.IDLE_TIMEOUT_MS = some (v * 1000000)) ∧
      (genv "READ_HEADER_TIMEOUT_MS" = "" →
        w.READ_HEADER_TIMEOUT_MS = none) ∧
      (∀ v, EnvCfg.atoi (genv "READ_HEADER_TIMEOUT_MS") = .ok v →
        fitsInt64 (v * 1000000) →
        w.READ_HEADER_TIMEOUT_MS = some (v * 1000000)) := by
  obtain ⟨o1, p1, d1, s1⟩ := EnvCfg.parseMs_cases genv "READ_TIMEOUT_MS" hr
  obtain ⟨o2, p2, d2, s2⟩ := EnvCfg.parseMs_cases genv "WRITE_TIMEOUT_MS" hw
  obtain ⟨o3, p3, d3, s3⟩ :=
    EnvCfg.parseMs_cases genv "SHUTDOWN_TIMEOUT_MS" hs
  obtain ⟨o4, p4, d4, s4⟩ := EnvCfg.parseMs_cases genv "IDLE_TIMEOUT_MS" hi
  obtain ⟨o5, p5, d5, s5⟩ :=
    EnvCfg.parseMs_cases genv "READ_HEADER_TIMEOUT_MS" hh
  refine ⟨EnvCfg.Variables.mk
    (EnvCfg.GetEnvOrDefault genv "ENV" "development")
    (EnvCfg.GetEnvOrDefault genv "DB_URI" "")
    (EnvCfg.GetEnvOrDefault genv "DB" "")
    (EnvCfg.GetEnvOrDefault genv "PORT" ":8080")
    (EnvCfg.GetEnvOrDefault genv "MODULE_NAME" "") o1 o2 o3 o4 o5,
    ?_,
    EnvCfg.GetEnvOrDefault_eq_ite genv "ENV" "development",
    EnvCfg.GetEnvOrDefault_eq_ite genv "DB_URI" "",
    EnvCfg.GetEnvOrDefault_eq_ite genv "DB" "",
    EnvCfg.GetEnvOrDefault_eq_ite genv "PORT" ":8080",
    EnvCfg.GetEnvOrDefault_eq_ite genv "MODULE_NAME" "",
    d1, s1, d2, s2, d3, s3, d4, s4, d5, s5⟩
  simp only [EnvCfg.LoadENVVariables, Bind.bind, Except.bind,
    p1, p2, p3, p4, p5]

/-- C8 witness: in the mixed environment seeding only ENV and
READ_TIMEOUT_MS, the seeded variables read back their values and every
other accessor reads back its documented default; the all-empty
environment reads back only defaults. -/
theorem c8_settings_roundtrip_witness :
    (∃ w, EnvCfg.LoadENVVariables mixedEnv = .ok w ∧
      w.Env = "staging" ∧ w.DB_URI = "" ∧ w.DB = "" ∧ w.Port = ":8080" ∧
      w.MODULE_NAME = "" ∧ w.READ_TIMEOUT_MS = some (750 * 1000000) ∧
      w.WRITE_TIMEOUT_MS = none) ∧
    (∃ w, EnvCfg.LoadENVVariables emptyEnv = .ok w ∧
      w.Env = "development" ∧ w.Port = ":8080" ∧
      w.READ_TIMEOUT_MS = none) := by
  constructor
  · obtain ⟨w, hload, hEnv, hUri, hDb, hPort, hMod, hrd, hrs, hwd, hws,
      hsd, hss, hid, his, hhd, hhs⟩ :=
      c8_settings_roundtrip mixedEnv
        (Or.inr ⟨750, by decide, by constructor <;> decide⟩)
        (Or.inl (by decide)) (Or.inl (by decide)) (Or.inl (by decide))
        (Or.inl (by decide))
    refine ⟨w, hload, ?_, ?_, ?_, ?_, ?_,
      hrs 750 (by decide) (by constructor <;> decide), hwd (by decide)⟩
    · simpa [mixedEnv] using hEnv
    · simpa [mixedEnv] using hUri
    · simpa [mixedEnv] using hDb
    · simpa [mixedEnv] using hPort
    · simpa [mixedEnv] using hMod
  · obtain ⟨w, hload, hEnv, hUri, hDb, hPort, hMod, hrd, hrs, hwd, hws,
      hsd, hss, hid, his, hhd, hhs⟩ :=
      c8_settings_roundtrip emptyEnv
        (Or.inl rfl) (Or.inl rfl) (Or.inl rfl) (Or.inl rfl) (Or.inl rfl)
    refine ⟨w, hload, ?_, ?_, hrd rfl⟩
    · simpa [emptyEnv] using hEnv
    · simpa [emptyEnv] using hPort

/-- C9: through the assembled auth router, a POST to /auth/register with
query parameter error=validation yields status 422 with success false and
a data object whose keys are exactly email and password; any other POST to
/auth/register yields status 201 with success true. -/
theorem c9_register_validation (q : List (String × String)) :
    (AuthApi.queryGet q "error" = "validation" →
      ∃ rep, AuthApi.appServe
          { method := "POST", path := "/auth/register", query := q } =
          some rep ∧
        rep.status = 422 ∧ rep.body.success = false ∧
        ∃ d, rep.body.data = some d ∧
          d.map Prod.fst = ["email", "password"]) ∧
    (AuthApi.queryGet q "error" ≠ "validation" →
      ∃ rep, AuthApi.appServe
          { method := "POST", path := "/auth/register", query := q } =
          some rep ∧
        rep.status = 201 ∧ rep.body.success = true) := by
  have happ : AuthApi.appServe
      { method := "POST", path := "/auth/register", query := q } =
      some (AuthApi.registerHandler
        { method := "POST", path := "/register", query := q }) := by
    have ht : ("/auth/register").take 5 = "/auth" := by decide
    have hd : ("/auth/register").drop 5 = "/register" := by decide
    have h1 : ("POST" = "POST" ∧ ("/register" : String) = "/login") =
        False := by simp
    simp [AuthApi.appServe, AuthApi.authRouterServe, ht, hd, h1]
  constructor
  · intro hv
    refine ⟨AuthApi.SendUnprocessableEntity "Validation failed"
      (some [("email", .str "Email is required"),
             ("password", .str "Password must be at least 8 characters")]),
      ?_, rfl, rfl, ⟨_, rfl, rfl⟩⟩
    rw [happ]
    simp [AuthApi.registerHandler, hv]
  · intro hv
    refine ⟨AuthApi.SendCreated "User registered successfully"
      (some [("user_id", .num 124),
             ("email", .str "newuser@example.com"),
             ("message", .str "Please verify your email")]),
      ?_, rfl, rfl⟩
    rw [happ]
    simp [AuthApi.registerHandler, hv]

/-- C9 witness: the two registration outcomes at concrete query strings. -/
theorem c9_register_validation_witness :
    (∃ rep, AuthApi.appServe
        { method := "POST", path := "/auth/register"
          query := [("error", "validation")] } = some rep ∧
      rep.status = 422 ∧ rep.body.success = false ∧
      ∃ d, rep.body.data = some d ∧
        d.map Prod.fst = ["email", "password"]) ∧
    (∃ rep, AuthApi.appServe
        { method := "POST", path := "/auth/register", query := [] } =
        some rep ∧
      rep.status = 201 ∧ rep.body.success = true) :=
  ⟨(c9_register_validation [("error", "validation")]).1 (by rfl),
   (c9_register_validation []).2 (by decide)⟩

/-- C10 witness: WithField panics on a fresh (zero-field) logger and
succeeds on a one-field logger. -/
theorem c10_empty_context_derivation_witness :
    IntLogger.WithField sampleHeap emptyParent "k" "v" =
      .error GoPanic.nilMapWrite ∧
    (∃ c h2, IntLogger.WithField sampleHeap sampleParent "k" "v" =
      .ok (c, h2)) :=
  ⟨(c10_empty_context_derivation sampleHeap emptyParent "k" "v" ("f", "g")
      []).2.1 (by decide),
   ((c10_empty_context_derivation sampleHeap sampleParent "k" "v" ("f", "g")
      []).2.2.2 (by decide)).1⟩
